import Mathlib

/-!
Shallow embedding of `src/models/ir_action_report.py` from the
`sale_order_documents_last_page` Odoo module, together with proofs about
its behaviour.

Modelling conventions:

* Python byte strings and text strings carrying payload data are lists of
  natural numbers (byte values resp. Unicode code points).
* `PdfLib` abstracts the external PyPDF2 collaborator: `parsePages buf`
  returns the page count of a parseable buffer and `none` when constructing
  the reader (or reading its page list) raises — a `PdfReadError` or any
  other parsing exception.  `PdfMerger.append` parses its argument with the
  same deterministic reader, so it raises exactly on buffers whose
  `parsePages` is `none`; `PdfMerger.write` serialises the accumulated
  ordered buffers (abstracted as `write`).
* `base64.b64decode` with the default `validate=False` is modelled after
  CPython's `binascii.a2b_base64` in non-strict mode: characters outside
  the base64 alphabet are discarded, a pad character `=` terminates a quad
  once at least two data characters of that quad were seen and enough pads
  accumulated, and a trailing incomplete quad raises `binascii.Error`
  (modelled as `none`).
* Odoo recordsets are lists.  `ir.attachment.search` is a filter over the
  store's attachment table in store order; an infrastructure failure of
  the lookup (the reason for the `try/except` around it) is modelled by
  the `lookupError` flag.
* `try/except` blocks returning a fallback value are modelled by making the
  embedded function return that fallback on the paths where the Python code
  would raise; every embedded function is total, which is exactly the
  "no error escapes" discipline of the original code.
-/

/-- Value of one base64 alphabet character, `none` for characters outside
the alphabet (CPython's `table_a2b_base64`). -/
def b64Val (c : Nat) : Option Nat :=
  if 65 ≤ c ∧ c ≤ 90 then some (c - 65)
  else if 97 ≤ c ∧ c ≤ 122 then some (c - 97 + 26)
  else if 48 ≤ c ∧ c ≤ 57 then some (c - 48 + 52)
  else if c = 43 then some 62
  else if c = 47 then some 63
  else none

/-- The base64 alphabet character for a 6-bit value. -/
def b64Char (v : Nat) : Nat :=
  if v < 26 then 65 + v
  else if v < 52 then 97 + (v - 26)
  else if v < 62 then 48 + (v - 52)
  else if v = 62 then 43
  else 47

/-- CPython `binascii.a2b_base64`, non-strict mode: state machine over the
input characters.  `qp` is the position inside the current quad, `left` the
pending bits, `pads` the count of pad characters seen inside the current
quad, `acc` the bytes produced so far.  `none` models a raised
`binascii.Error` (incomplete trailing quad). -/
def a2b : List Nat → Nat → Nat → Nat → List Nat → Option (List Nat)
  | [], qp, _, _, acc => if qp = 0 then some acc else none
  | c :: rest, qp, left, pads, acc =>
    if c = 61 then
      if 2 ≤ qp ∧ 4 ≤ qp + pads + 1 then some acc
      else if 2 ≤ qp then a2b rest qp left (pads + 1) acc
      else a2b rest qp left pads acc
    else
      match b64Val c with
      | none => a2b rest qp left pads acc
      | some d =>
        match qp with
        | 0 => a2b rest 1 d 0 acc
        | 1 => a2b rest 2 (d % 16) 0 (acc ++ [left * 4 + d / 16])
        | 2 => a2b rest 3 (d % 4) 0 (acc ++ [left * 16 + d / 4])
        | _ => a2b rest 0 0 0 (acc ++ [left * 64 + d])

/-- `base64.b64decode(s)` with `validate=False`; `none` models a raised
exception. -/
def b64decode (s : List Nat) : Option (List Nat) :=
  a2b s 0 0 0 []

/-- `base64.b64encode` on a byte string (standard alphabet, `=` padding). -/
def b64encode : List Nat → List Nat
  | [] => []
  | [a] => [b64Char (a / 4), b64Char (a % 4 * 16), 61, 61]
  | [a, b] => [b64Char (a / 4), b64Char (a % 4 * 16 + b / 16), b64Char (b % 16 * 4), 61]
  | a :: b :: c :: rest =>
    b64Char (a / 4) :: b64Char (a % 4 * 16 + b / 16) ::
      b64Char (b % 16 * 4 + c / 64) :: b64Char (c % 64) :: b64encode rest

/-- Helper for `dedupFirst`: `seen` collects the ids already emitted. -/
def dedupFirstAux (seen : List Nat) : List Nat → List Nat
  | [] => []
  | a :: rest =>
    if seen.contains a then dedupFirstAux seen rest
    else a :: dedupFirstAux (a :: seen) rest

/-- Order-of-first-occurrence deduplication, the semantics of collecting
`.ids` of an Odoo recordset union (`mapped`). -/
def dedupFirst (l : List Nat) : List Nat :=
  dedupFirstAux [] l

/-- The dynamic shape of `attachment.datas`: a text string, a byte string,
the falsy `False`/`None` value, or a value of some other type. -/
inductive Payload where
  | str (s : List Nat)
  | bytes (b : List Nat)
  | pyNone
  | other
deriving DecidableEq

/-- Python truthiness test `not attachment.datas`. -/
def payloadFalsy : Payload → Bool
  | .str s => s.isEmpty
  | .bytes b => b.isEmpty
  | .pyNone => true
  | .other => false

/-- One `ir.attachment` record (the fields this module reads). -/
structure AttachmentRec where
  name : String
  res_model : String
  res_id : Nat
  mimetype : String
  datas : Payload
deriving DecidableEq

/-- One `sale.order.line`; `product_id` is `none` for lines without a
product (e.g. section / note lines). -/
structure OrderLine where
  product_id : Option Nat
deriving DecidableEq

/-- One `sale.order` record (the fields this module reads). -/
structure SaleOrder where
  order_line : List OrderLine
deriving DecidableEq

/-- The external PyPDF2 collaborator (see the module docstring above). -/
structure PdfLib where
  parsePages : List Nat → Option Nat
  write : List (List Nat) → List Nat

/-- The report descriptor returned by `self._get_report(report_ref)`. -/
structure Report where
  report_name : String
  model : String
deriving DecidableEq

/-- The host environment: record store, product→template map, attachment
table, lookup-failure flag and the PDF library. -/
structure Env where
  recExists : Nat → Bool
  orders : Nat → SaleOrder
  product_tmpl_id : Nat → Nat
  attachments : List AttachmentRec
  lookupError : Bool
  lib : PdfLib

/-- The four-byte PDF signature `%PDF`. -/
def pdfSig : List Nat := [37, 80, 68, 70]

/-- The tail of `_append_single_attachment` after the payload was decoded
to `pdf_data`: signature check, structural parse, page-count check, then
`merger.append(pdf_buffer)` (which succeeds because the same buffer just
parsed).  `some pdf_data` means the attachment was appended (`return
True`), `none` means it was rejected (`return False`). -/
def check_pdf_and_append (lib : PdfLib) (pdf_data : List Nat) : Option (List Nat) :=
  if pdf_data.length < 4 ∨ pdf_data.take 4 ≠ pdfSig then none
  else
    match lib.parsePages pdf_data with
    | none => none
    | some 0 => none
    | some _ => some pdf_data

/-- `_append_single_attachment(self, merger, attachment)`.  The returned
`Option` carries the decoded bytes appended to the merger (`some`) or
records that the attachment was skipped (`none`); the function's outer
`try/except` means it never raises, which the embedding reflects by being
total. -/
def append_single_attachment (lib : PdfLib) (attachment : AttachmentRec) : Option (List Nat) :=
  if payloadFalsy attachment.datas then none
  else
    match attachment.datas with
    | .str s =>
      -- str payload: b64decode(raw_data); a UnicodeError (non-ASCII) or
      -- binascii.Error propagates to the outer except and yields False.
      if s.all (· < 128) then
        match b64decode s with
        | some pdf_data => check_pdf_and_append lib pdf_data
        | none => none
      else none
    | .bytes b =>
      -- bytes payload: try b64decode, fall back to the raw bytes.
      check_pdf_and_append lib ((b64decode b).getD b)
    | .pyNone => none
    | .other => none

/-- The `for attachment in attachments` loop of
`_append_attachments_to_pdf`: each attachment is tried under its own
`try/except ... continue`, so a skipped or failing record never stops the
loop.  Returns the ordered list of payloads appended to the merger. -/
def appendLoop (lib : PdfLib) : List AttachmentRec → List (List Nat)
  | [] => []
  | attachment :: rest =>
    match append_single_attachment lib attachment with
    | some pdf_data => pdf_data :: appendLoop lib rest
    | none => appendLoop lib rest

/-- `_append_attachments_to_pdf(self, original_buffer, attachments)`.
`merger.append(original_buffer)` raises exactly when PyPDF2 cannot parse
the original buffer; the surrounding `try/except` then returns `None`.
Otherwise the loop runs, and the result is `None` when `appended_count`
stayed zero and the serialised merger otherwise. -/
def append_attachments_to_pdf (lib : PdfLib) (original : List Nat)
    (attachments : List AttachmentRec) : Option (List Nat) :=
  if (lib.parsePages original).isNone then none
  else
    let appended := appendLoop lib attachments
    if 0 < appended.length then some (lib.write (original :: appended))
    else none

/-- `appended_count` as observed at `_append_attachments_to_pdf`'s
decision point: zero when the merge aborted before the loop (unparseable
original), otherwise the number of successfully appended attachments. -/
def appended_count (lib : PdfLib) (original : List Nat)
    (attachments : List AttachmentRec) : Nat :=
  if (lib.parsePages original).isNone then 0
  else (appendLoop lib attachments).length

/-- `_get_product_attachments(self, record)`.  `record.order_line` always
exists on `sale.order`, so the `hasattr` test reduces to the truthiness of
the recordset.  The only fallible step inside the `try` is the
`ir.attachment` search; `env.lookupError` models it raising, in which case
the `except` returns the empty recordset. -/
def get_product_attachments (env : Env) (record : SaleOrder) : List AttachmentRec :=
  if !record.order_line.isEmpty then
    let product_ids := dedupFirst (record.order_line.filterMap (·.product_id))
    if !product_ids.isEmpty then
      let product_template_ids := dedupFirst (product_ids.map env.product_tmpl_id)
      if env.lookupError then []
      else
        env.attachments.filter (fun a =>
          a.res_model == "product.template" &&
          product_template_ids.contains a.res_id &&
          a.mimetype == "application/pdf")
    else []
  else []

/-- The guard of `_render_qweb_pdf`'s enrichment branch. -/
def enrichmentApplies (report : Report) (docids : List Nat) (pdf_content : List Nat) : Bool :=
  report.report_name == "sale.report_saleorder" &&
  report.model == "sale.order" &&
  !docids.isEmpty &&
  !pdf_content.isEmpty

/-- `_render_qweb_pdf(self, report_ref, docids, data)` after the
`super()._render_qweb_pdf` call: `pdf_content` and `report_type` are that
call's results, `report` is `self._get_report(report_ref)`.  The body's
`try/except Exception` falls through to `return pdf_content, report_type`;
in the embedding all enrichment helpers are total, so the fall-through
paths appear as explicit `else` branches. -/
def render_qweb_pdf (env : Env) (report : Report) (docids : List Nat)
    (pdf_content : List Nat) (report_type : String) : List Nat × String :=
  if enrichmentApplies report docids pdf_content then
    -- record = self.env['sale.order'].browse(docids[0]); if record.exists():
    if env.recExists (docids.headD 0) then
      -- product_attachments = self._get_product_attachments(record)
      if !(get_product_attachments env (env.orders (docids.headD 0))).isEmpty then
        match append_attachments_to_pdf env.lib pdf_content
            (get_product_attachments env (env.orders (docids.headD 0))) with
        | some merged_pdf_content => (merged_pdf_content, report_type)
        | none => (pdf_content, report_type)
      else (pdf_content, report_type)
    else (pdf_content, report_type)
  else (pdf_content, report_type)

/-! ### Base64 lemmas -/

theorem b64Char_ne_pad (v : Nat) (h : v < 64) : b64Char v ≠ 61 := by
  unfold b64Char
  split_ifs <;> omega

theorem b64Char_lt_128 (v : Nat) : b64Char v < 128 := by
  unfold b64Char
  split_ifs <;> omega

theorem b64Val_b64Char (v : Nat) (h : v < 64) : b64Val (b64Char v) = some v := by
  unfold b64Char b64Val
  split_ifs <;> first
    | (simp only [Option.some.injEq]; omega)
    | (exfalso; omega)

theorem a2b_step0 (v : Nat) (hv : v < 64) (rest : List Nat) (left pads : Nat)
    (acc : List Nat) :
    a2b (b64Char v :: rest) 0 left pads acc = a2b rest 1 v 0 acc := by
  rw [a2b, if_neg (b64Char_ne_pad v hv), b64Val_b64Char v hv]

theorem a2b_step1 (v : Nat) (hv : v < 64) (rest : List Nat) (left pads : Nat)
    (acc : List Nat) :
    a2b (b64Char v :: rest) 1 left pads acc =
      a2b rest 2 (v % 16) 0 (acc ++ [left * 4 + v / 16]) := by
  rw [a2b, if_neg (b64Char_ne_pad v hv), b64Val_b64Char v hv]

theorem a2b_step2 (v : Nat) (hv : v < 64) (rest : List Nat) (left pads : Nat)
    (acc : List Nat) :
    a2b (b64Char v :: rest) 2 left pads acc =
      a2b rest 3 (v % 4) 0 (acc ++ [left * 16 + v / 4]) := by
  rw [a2b, if_neg (b64Char_ne_pad v hv), b64Val_b64Char v hv]

theorem a2b_step3 (v : Nat) (hv : v < 64) (rest : List Nat) (left pads : Nat)
    (acc : List Nat) :
    a2b (b64Char v :: rest) 3 left pads acc =
      a2b rest 0 0 0 (acc ++ [left * 64 + v]) := by
  rw [a2b, if_neg (b64Char_ne_pad v hv), b64Val_b64Char v hv]

theorem a2b_encode : ∀ (d : List Nat), (∀ x ∈ d, x < 256) → ∀ acc : List Nat,
    a2b (b64encode d) 0 0 0 acc = some (acc ++ d)
  | [], _, acc => by simp [b64encode, a2b]
  | [a], h, acc => by
    have ha : a < 256 := h a (by simp)
    rw [b64encode, a2b_step0 (a / 4) (by omega), a2b_step1 (a % 4 * 16) (by omega)]
    rw [show a / 4 * 4 + a % 4 * 16 / 16 = a by omega]
    simp [a2b]
  | [a, b], h, acc => by
    have ha : a < 256 := h a (by simp)
    have hb : b < 256 := h b (by simp)
    rw [b64encode, a2b_step0 (a / 4) (by omega),
      a2b_step1 (a % 4 * 16 + b / 16) (by omega),
      a2b_step2 (b % 16 * 4) (by omega)]
    rw [show a / 4 * 4 + (a % 4 * 16 + b / 16) / 16 = a by omega,
      show (a % 4 * 16 + b / 16) % 16 * 16 + b % 16 * 4 / 4 = b by omega]
    simp [a2b]
  | a :: b :: c :: rest, h, acc => by
    have ha : a < 256 := h a (by simp)
    have hb : b < 256 := h b (by simp)
    have hc : c < 256 := h c (by simp)
    have ih := a2b_encode rest (fun x hx => h x (by simp [hx])) (acc ++ [a, b, c])
    rw [b64encode, a2b_step0 (a / 4) (by omega),
      a2b_step1 (a % 4 * 16 + b / 16) (by omega),
      a2b_step2 (b % 16 * 4 + c / 64) (by omega),
      a2b_step3 (c % 64) (by omega)]
    rw [show a / 4 * 4 + (a % 4 * 16 + b / 16) / 16 = a by omega,
      show (a % 4 * 16 + b / 16) % 16 * 16 + (b % 16 * 4 + c / 64) / 4 = b by omega,
      show (b % 16 * 4 + c / 64) % 4 * 64 + c % 64 = c by omega]
    simpa using ih

theorem b64decode_b64encode (d : List Nat) (h : ∀ x ∈ d, x < 256) :
    b64decode (b64encode d) = some d := by
  simpa [b64decode] using a2b_encode d h []

theorem b64encode_eq_nil (d : List Nat) : b64encode d = [] ↔ d = [] := by
  match d with
  | [] => simp [b64encode]
  | [a] => simp [b64encode]
  | [a, b] => simp [b64encode]
  | a :: b :: c :: rest => simp [b64encode]

theorem b64encode_all_lt_128 : ∀ d : List Nat, ∀ x ∈ b64encode d, x < 128
  | [], x, hx => by simp [b64encode] at hx
  | [a], x, hx => by
    simp only [b64encode, List.mem_cons, List.not_mem_nil, or_false] at hx
    rcases hx with h | h | h | h <;> subst h <;>
      first | exact b64Char_lt_128 _ | omega
  | [a, b], x, hx => by
    simp only [b64encode, List.mem_cons, List.not_mem_nil, or_false] at hx
    rcases hx with h | h | h | h <;> subst h <;>
      first | exact b64Char_lt_128 _ | omega
  | a :: b :: c :: rest, x, hx => by
    simp only [b64encode, List.mem_cons] at hx
    rcases hx with h | h | h | h | h
    · subst h; exact b64Char_lt_128 _
    · subst h; exact b64Char_lt_128 _
    · subst h; exact b64Char_lt_128 _
    · subst h; exact b64Char_lt_128 _
    · exact b64encode_all_lt_128 rest x h

/-! ### Merge loop and resolver lemmas -/

theorem appendLoop_eq_filterMap (lib : PdfLib) (l : List AttachmentRec) :
    appendLoop lib l = l.filterMap (append_single_attachment lib) := by
  induction l with
  | nil => rfl
  | cons a rest ih =>
    simp only [appendLoop, List.filterMap_cons]
    cases append_single_attachment lib a <;> simp [ih]

theorem appendLoop_append (lib : PdfLib) (l1 l2 : List AttachmentRec) :
    appendLoop lib (l1 ++ l2) = appendLoop lib l1 ++ appendLoop lib l2 := by
  simp [appendLoop_eq_filterMap]

theorem append_attachments_none_iff (lib : PdfLib) (original : List Nat)
    (attachments : List AttachmentRec) :
    append_attachments_to_pdf lib original attachments = none ↔
      appended_count lib original attachments = 0 := by
  unfold append_attachments_to_pdf appended_count
  cases hp : (lib.parsePages original).isNone with
  | true => simp [hp]
  | false =>
    simp only [hp, Bool.false_eq_true, if_false]
    rcases Nat.eq_zero_or_pos (appendLoop lib attachments).length with h0 | h0
    · simp [h0]
    · simp [h0, Nat.pos_iff_ne_zero.mp h0]

theorem append_attachments_some_iff (lib : PdfLib) (original : List Nat)
    (attachments : List AttachmentRec) (out : List Nat) :
    append_attachments_to_pdf lib original attachments = some out ↔
      0 < appended_count lib original attachments ∧
        out = lib.write (original :: appendLoop lib attachments) := by
  unfold append_attachments_to_pdf appended_count
  cases hp : (lib.parsePages original).isNone with
  | true => simp [hp]
  | false =>
    simp only [hp, Bool.false_eq_true, if_false]
    rcases Nat.eq_zero_or_pos (appendLoop lib attachments).length with h0 | h0
    · simp [h0]
    · rw [if_pos h0]
      simp only [Option.some.injEq]
      constructor
      · intro h; exact ⟨h0, h.symm⟩
      · intro h; exact h.2.symm

/-- The deduplicated product-template ids reachable from a record's lines. -/
def templateIdsOf (env : Env) (record : SaleOrder) : List Nat :=
  dedupFirst ((dedupFirst (record.order_line.filterMap (·.product_id))).map env.product_tmpl_id)

theorem gpa_eq (env : Env) (record : SaleOrder) :
    get_product_attachments env record =
      if env.lookupError then []
      else if record.order_line.isEmpty then []
      else env.attachments.filter (fun a =>
        a.res_model == "product.template" &&
        (templateIdsOf env record).contains a.res_id &&
        a.mimetype == "application/pdf") := by
  unfold get_product_attachments templateIdsOf
  by_cases hl : record.order_line.isEmpty <;> by_cases he : env.lookupError <;>
    simp only [hl, he, Bool.not_true, Bool.not_false, if_true, if_false, Bool.false_eq_true,
      ite_self]
  · by_cases hp : (dedupFirst (record.order_line.filterMap (·.product_id))).isEmpty
    · rw [List.isEmpty_iff] at hp
      rw [hp]
      simp [dedupFirst, dedupFirstAux]
    · simp [hp]

theorem append_single_str_bytes (lib : PdfLib) (nm rm : String) (rid : Nat) (mt : String)
    (d : List Nat) (hb : ∀ x ∈ d, x < 256) (hraw : b64decode d = none) :
    append_single_attachment lib ⟨nm, rm, rid, mt, .str (b64encode d)⟩
      = append_single_attachment lib ⟨nm, rm, rid, mt, .bytes d⟩ := by
  have hd : d ≠ [] := by
    rintro rfl
    simp [b64decode, a2b] at hraw
  have henc : (b64encode d).isEmpty = false := by
    simp [List.isEmpty_iff, b64encode_eq_nil, hd]
  have hdne : d.isEmpty = false := by simp [List.isEmpty_iff, hd]
  have hall : (b64encode d).all (· < 128) = true := by
    rw [List.all_eq_true]
    intro x hx
    simpa using b64encode_all_lt_128 d x hx
  simp only [append_single_attachment, payloadFalsy, henc, hdne, Bool.false_eq_true,
    if_false, hall, if_true, b64decode_b64encode d hb, hraw, Option.getD_none,
    Option.getD_some]

theorem render_congr (e1 e2 : Env)
    (h1 : e1.recExists = e2.recExists) (h2 : e1.orders = e2.orders)
    (h3 : e1.lib = e2.lib)
    (h4 : ∀ record, (get_product_attachments e1 record).isEmpty
                  = (get_product_attachments e2 record).isEmpty)
    (h5 : ∀ record, appendLoop e1.lib (get_product_attachments e1 record)
                  = appendLoop e2.lib (get_product_attachments e2 record))
    (report : Report) (docids : List Nat) (pdf_content : List Nat) (report_type : String) :
    render_qweb_pdf e1 report docids pdf_content report_type
      = render_qweb_pdf e2 report docids pdf_content report_type := by
  unfold render_qweb_pdf
  rw [h1, h2]
  by_cases hco : enrichmentApplies report docids pdf_content = true
  · rw [if_pos hco, if_pos hco]
    by_cases hex : e2.recExists (docids.headD 0) = true
    · rw [if_pos hex, if_pos hex]
      have hm : append_attachments_to_pdf e1.lib pdf_content
            (get_product_attachments e1 (e2.orders (docids.headD 0)))
          = append_attachments_to_pdf e2.lib pdf_content
            (get_product_attachments e2 (e2.orders (docids.headD 0))) := by
        have h5' := h5 (e2.orders (docids.headD 0))
        rw [h3] at h5'
        unfold append_attachments_to_pdf
        rw [h3, h5']
      simp only [h4 (e2.orders (docids.headD 0)), hm]
    · rw [if_neg hex, if_neg hex]
  · rw [if_neg hco, if_neg hco]

/-- Exhaustive case analysis of the render override: the result is either
the pass-through of the base rendering, or a successful merge result. -/
theorem render_cases (env : Env) (report : Report) (docids pdf_content : List Nat)
    (report_type : String) :
    render_qweb_pdf env report docids pdf_content report_type = (pdf_content, report_type) ∨
    ∃ out, append_attachments_to_pdf env.lib pdf_content
        (get_product_attachments env (env.orders (docids.headD 0))) = some out ∧
      render_qweb_pdf env report docids pdf_content report_type = (out, report_type) := by
  unfold render_qweb_pdf
  by_cases hco : enrichmentApplies report docids pdf_content = true
  · rw [if_pos hco]
    by_cases hex : env.recExists (docids.headD 0) = true
    · rw [if_pos hex]
      cases hne : (get_product_attachments env (env.orders (docids.headD 0))).isEmpty with
      | true =>
        left
        rfl
      | false =>
        cases hm : append_attachments_to_pdf env.lib pdf_content
            (get_product_attachments env (env.orders (docids.headD 0))) with
        | none =>
          left
          rfl
        | some out =>
          right
          exact ⟨out, rfl, rfl⟩
    · rw [if_neg hex]
      left
      rfl
  · rw [if_neg hco]
    left
    rfl

theorem check_pdf_none_iff (lib : PdfLib) (pdf_data : List Nat) :
    check_pdf_and_append lib pdf_data = none ↔
      (pdf_data.length < 4 ∨ pdf_data.take 4 ≠ pdfSig ∨
        lib.parsePages pdf_data = none ∨ lib.parsePages pdf_data = some 0) := by
  unfold check_pdf_and_append
  by_cases h : pdf_data.length < 4 ∨ pdf_data.take 4 ≠ pdfSig
  · rw [if_pos h]
    constructor
    · intro _
      tauto
    · intro _
      rfl
  · rw [if_neg h]
    push_neg at h
    cases hp : lib.parsePages pdf_data with
    | none => simp [hp]
    | some n =>
      cases n with
      | zero => simp [hp]
      | succ m => simp [hp, h.2, Nat.not_lt.mpr h.1]

theorem check_pdf_some (lib : PdfLib) (pdf_data out : List Nat)
    (h : check_pdf_and_append lib pdf_data = some out) : out = pdf_data := by
  unfold check_pdf_and_append at h
  split at h
  · cases h
  · split at h
    · cases h
    · cases h
    · cases h
      rfl

/-- Spec-side payload normalisation, following the specification's wording
(§4.4, §9): attempt base64 decoding first; fall back to the raw value only
when the payload is already raw bytes; any other payload shape has an
unrecognised encoding.  (For a text payload, failure of the base64 decode
— including non-ASCII text — means the encoding is unrecognised.) -/
def normalizePayload : Payload → Option (List Nat)
  | .str s => if s.all (· < 128) then b64decode s else none
  | .bytes b => some ((b64decode b).getD b)
  | .pyNone => none
  | .other => none

/-- C10: for every invocation, the format tag returned by the render
override is exactly the format tag produced by the underlying rendering
pipeline; only the byte component is ever replaced. -/
theorem c10_format_tag_preserved (env : Env) (report : Report)
    (docids pdf_content : List Nat) (report_type : String) :
    (render_qweb_pdf env report docids pdf_content report_type).2 = report_type := by
  rcases render_cases env report docids pdf_content report_type with h | ⟨out, _, h⟩ <;>
    rw [h]

/-- C1: the returned byte sequence is either exactly the original rendered
bytes, or the serialisation of the base document followed by precisely the
attachments that passed full validation, in the order the attachment query
yielded them; no attachment failing validation contributes. -/
theorem c1_output_invariant (env : Env) (report : Report)
    (docids pdf_content : List Nat) (report_type : String) :
    (render_qweb_pdf env report docids pdf_content report_type).1 = pdf_content ∨
    (render_qweb_pdf env report docids pdf_content report_type).1
      = env.lib.write (pdf_content ::
          (get_product_attachments env (env.orders (docids.headD 0))).filterMap
            (append_single_attachment env.lib)) := by
  rcases render_cases env report docids pdf_content report_type with h | ⟨out, hm, h⟩
  · left
    rw [h]
  · right
    rw [h]
    have h2 := (append_attachments_some_iff _ _ _ _).mp hm
    rw [show (out, report_type).1 = out from rfl, h2.2, appendLoop_eq_filterMap]

/-- C2: no error raised in the enrichment path escapes to the caller — the
result is always the original bytes or merged bytes, paired with the
pipeline's format tag; in particular a merge-library error while
concatenating (PyPDF2 failing on the original buffer) aborts the entire
enrichment and the original bytes are returned. -/
theorem c2_no_error_escapes (env : Env) (report : Report)
    (docids pdf_content : List Nat) (report_type : String) :
    (render_qweb_pdf env report docids pdf_content report_type
        = (pdf_content, report_type) ∨
     render_qweb_pdf env report docids pdf_content report_type
        = (env.lib.write (pdf_content :: appendLoop env.lib
            (get_product_attachments env (env.orders (docids.headD 0)))), report_type)) ∧
    (env.lib.parsePages pdf_content = none →
      render_qweb_pdf env report docids pdf_content report_type
        = (pdf_content, report_type)) := by
  constructor
  · rcases render_cases env report docids pdf_content report_type with h | ⟨out, hm, h⟩
    · left
      exact h
    · right
      rw [h, ((append_attachments_some_iff _ _ _ _).mp hm).2]
  · intro hp
    rcases render_cases env report docids pdf_content report_type with h | ⟨out, hm, h⟩
    · exact h
    · exfalso
      have hc : appended_count env.lib pdf_content
          (get_product_attachments env (env.orders (docids.headD 0))) = 0 := by
        unfold appended_count
        simp [hp]
      have := ((append_attachments_some_iff _ _ _ _).mp hm).1
      omega

/-- C3: enrichment is attempted iff the report name and model match the
sales-order report, the document-id sequence is non-empty and the base
bytes are non-empty; whenever any condition fails, base bytes and format
tag are returned unchanged, whatever the attachment store holds. -/
theorem c3_enrichment_guard (env : Env) (report : Report)
    (docids pdf_content : List Nat) (report_type : String) :
    (enrichmentApplies report docids pdf_content = true ↔
      (report.report_name = "sale.report_saleorder" ∧ report.model = "sale.order" ∧
        docids ≠ [] ∧ pdf_content ≠ [])) ∧
    (enrichmentApplies report docids pdf_content = false →
      render_qweb_pdf env report docids pdf_content report_type
        = (pdf_content, report_type)) := by
  constructor
  · simp [enrichmentApplies, and_assoc, List.isEmpty_iff]
  · intro h
    unfold render_qweb_pdf
    rw [if_neg (by simp [h])]

/-- C5: the merge loop never aborts on a bad attachment: a record failing
validation is skipped and processing continues, so the merge result is the
same as if the bad record were absent and every valid attachment is still
appended. -/
theorem c5_bad_attachment_skipped (lib : PdfLib) (original : List Nat)
    (pre post : List AttachmentRec) (bad : AttachmentRec)
    (h : append_single_attachment lib bad = none) :
    append_attachments_to_pdf lib original (pre ++ bad :: post)
      = append_attachments_to_pdf lib original (pre ++ post) := by
  unfold append_attachments_to_pdf
  have hloop : appendLoop lib (pre ++ bad :: post) = appendLoop lib (pre ++ post) := by
    simp [appendLoop_eq_filterMap, List.filterMap_append, List.filterMap_cons, h]
  rw [hloop]

/-- C6: the merge engine signals "no change" (`none`) exactly when zero
attachments were successfully appended, and returns the serialised
accumulator exactly when one or more were appended. -/
theorem c6_merge_signal (lib : PdfLib) (original : List Nat)
    (attachments : List AttachmentRec) :
    (append_attachments_to_pdf lib original attachments = none ↔
      appended_count lib original attachments = 0) ∧
    (∀ out, append_attachments_to_pdf lib original attachments = some out ↔
      (1 ≤ appended_count lib original attachments ∧
        out = lib.write (original :: appendLoop lib attachments))) :=
  ⟨append_attachments_none_iff lib original attachments,
    fun out => append_attachments_some_iff lib original attachments out⟩

/-- C7: the attachment resolver returns an empty result when the lookup
errors or the document has no line items; otherwise it returns exactly the
store's records whose owning model is `product.template`, whose owning id
lies in the deduplicated set of template ids of the referenced products,
and whose mime type is exactly `application/pdf`, in store order. -/
theorem c7_resolver_query (env : Env) (record : SaleOrder) :
    get_product_attachments env record =
      if env.lookupError then []
      else if record.order_line.isEmpty then []
      else env.attachments.filter (fun a =>
        a.res_model == "product.template" &&
        (templateIdsOf env record).contains a.res_id &&
        a.mimetype == "application/pdf") :=
  gpa_eq env record

/-- C9: when the first document id does not resolve to an existing record,
the render override returns the original bytes and format tag unchanged —
for every attachment table and PDF library, i.e. without the result ever
depending on attachment lookup or merging. -/
theorem c9_missing_record_passthrough (env : Env) (report : Report) (d0 : Nat)
    (rest pdf_content : List Nat) (report_type : String)
    (h : env.recExists d0 = false) :
    render_qweb_pdf env report (d0 :: rest) pdf_content report_type
      = (pdf_content, report_type) := by
  unfold render_qweb_pdf
  by_cases hco : enrichmentApplies report (d0 :: rest) pdf_content = true
  · rw [if_pos hco, if_neg (by simp [List.headD, h])]
  · rw [if_neg hco]

/-- C4: single-attachment validation returns "not appended" (and, being
total, never raises) exactly when the payload is absent or empty, its
encoding is unrecognised (base64 decode attempted first, raw fallback only
for byte values), the decoded payload is shorter than 4 bytes or lacks the
`%PDF` signature, fails structural parsing, or parses with zero pages; a
payload passing all checks is appended, and what is appended is exactly
the normalised payload. -/
theorem c4_validation_conditions (lib : PdfLib) (attachment : AttachmentRec) :
    (append_single_attachment lib attachment = none ↔
      (payloadFalsy attachment.datas = true ∨
        normalizePayload attachment.datas = none ∨
        ∃ pdf_data, normalizePayload attachment.datas = some pdf_data ∧
          (pdf_data.length < 4 ∨ pdf_data.take 4 ≠ pdfSig ∨
            lib.parsePages pdf_data = none ∨ lib.parsePages pdf_data = some 0))) ∧
    (∀ pdf_data, append_single_attachment lib attachment = some pdf_data →
      normalizePayload attachment.datas = some pdf_data) := by
  obtain ⟨nm, rm, rid, mt, p⟩ := attachment
  cases p with
  | pyNone => simp [append_single_attachment, payloadFalsy, normalizePayload]
  | other => simp [append_single_attachment, payloadFalsy, normalizePayload]
  | bytes b =>
    by_cases hb : b.isEmpty = true
    · simp [append_single_attachment, payloadFalsy, hb]
    · constructor
      · simp only [append_single_attachment, payloadFalsy, hb, Bool.false_eq_true, if_false,
          normalizePayload, check_pdf_none_iff, Option.some.injEq]
        constructor
        · intro hcond
          right; right
          exact ⟨(b64decode b).getD b, rfl, hcond⟩
        · intro hcond
          rcases hcond with hfal | hnone | ⟨pd, hpd, hcond⟩
          · exact hfal.elim
          · cases hnone
          · rw [hpd]
            exact hcond
      · intro pd h
        simp only [append_single_attachment, payloadFalsy, hb, Bool.false_eq_true,
          if_false] at h
        rw [normalizePayload, check_pdf_some lib _ pd h]
  | str s =>
    by_cases hs : s.isEmpty = true
    · simp [append_single_attachment, payloadFalsy, hs]
    · by_cases ha : s.all (· < 128) = true
      · cases hd : b64decode s with
        | none =>
          constructor
          · simp only [append_single_attachment, payloadFalsy, hs, Bool.false_eq_true,
              if_false, ha, if_true, hd, normalizePayload, true_iff]
            right; left
            trivial
          · intro pd h
            simp only [append_single_attachment, payloadFalsy, hs, Bool.false_eq_true,
              if_false, ha, if_true, hd] at h
            exact Option.noConfusion h
        | some pd0 =>
          constructor
          · simp only [append_single_attachment, payloadFalsy, hs, Bool.false_eq_true,
              if_false, ha, if_true, hd, normalizePayload, check_pdf_none_iff,
              Option.some.injEq]
            constructor
            · intro hcond
              right; right
              exact ⟨pd0, rfl, hcond⟩
            · intro hcond
              rcases hcond with hfal | hnone | ⟨pd, hpd, hcond⟩
              · exact hfal.elim
              · cases hnone
              · cases hpd
                exact hcond
          · intro pd h
            simp only [append_single_attachment, payloadFalsy, hs, Bool.false_eq_true,
              if_false, ha, if_true, hd] at h
            rw [normalizePayload, if_pos ha, hd, check_pdf_some lib pd0 pd h]
      · constructor
        · simp only [append_single_attachment, payloadFalsy, hs, Bool.false_eq_true,
            if_false, ha, normalizePayload, true_iff]
          right; left
          trivial
        · intro pd h
          simp only [append_single_attachment, payloadFalsy, hs, Bool.false_eq_true,
            if_false, ha] at h
          exact Option.noConfusion h

theorem filter_middle_isEmpty (p : AttachmentRec → Bool) (pre post : List AttachmentRec)
    (x y : AttachmentRec) (hxy : p x = p y) :
    ((pre ++ x :: post).filter p).isEmpty = ((pre ++ y :: post).filter p).isEmpty := by
  simp only [List.filter_append, List.filter_cons, ← hxy]
  cases hx : p x with
  | false => rfl
  | true =>
    have h1 : ∀ (z : AttachmentRec) (l m : List AttachmentRec),
        (l ++ z :: m).isEmpty = false := by
      intro z l m
      cases l <;> rfl
    show (pre.filter p ++ x :: post.filter p).isEmpty
      = (pre.filter p ++ y :: post.filter p).isEmpty
    rw [h1, h1]

theorem appendLoop_filter_middle (lib : PdfLib) (p : AttachmentRec → Bool)
    (pre post : List AttachmentRec) (x y : AttachmentRec)
    (hxy : p x = p y)
    (hsingle : append_single_attachment lib x = append_single_attachment lib y) :
    appendLoop lib ((pre ++ x :: post).filter p)
      = appendLoop lib ((pre ++ y :: post).filter p) := by
  simp only [List.filter_append, List.filter_cons, ← hxy]
  cases hx : p x with
  | false => rfl
  | true =>
    simp only [if_pos]
    rw [appendLoop_append, appendLoop_append]
    congr 1
    simp only [appendLoop, hsingle]

/-- C8 (amended): for every valid PDF whose raw byte form does not itself
successfully base64-decode, supplying the payload as base64-encoded text
and supplying it as raw bytes produce identical merge results from the
render override, whatever the surrounding environment, attachment table
position and other record fields. -/
theorem c8_base64_raw_equivalence (ex : Nat → Bool) (ords : Nat → SaleOrder)
    (tmpl : Nat → Nat) (lerr : Bool) (lib : PdfLib)
    (pre post : List AttachmentRec) (nm rm : String) (rid : Nat) (mt : String)
    (report : Report) (docids pdf_content : List Nat) (report_type : String)
    (d : List Nat) (hbytes : ∀ x ∈ d, x < 256)
    (_hsig : d.take 4 = pdfSig) (_hpages : lib.parsePages d ≠ none)
    (hraw : b64decode d = none) :
    render_qweb_pdf
        ⟨ex, ords, tmpl, pre ++ ⟨nm, rm, rid, mt, .str (b64encode d)⟩ :: post, lerr, lib⟩
        report docids pdf_content report_type
      = render_qweb_pdf
        ⟨ex, ords, tmpl, pre ++ ⟨nm, rm, rid, mt, .bytes d⟩ :: post, lerr, lib⟩
        report docids pdf_content report_type := by
  have key := append_single_str_bytes lib nm rm rid mt d hbytes hraw
  apply render_congr
  · rfl
  · rfl
  · rfl
  · intro record
    rw [gpa_eq, gpa_eq]
    dsimp only [templateIdsOf]
    cases lerr with
    | true => rfl
    | false =>
      cases hord : record.order_line.isEmpty with
      | true => rfl
      | false => exact filter_middle_isEmpty _ pre post _ _ rfl
  · intro record
    rw [gpa_eq, gpa_eq]
    dsimp only [templateIdsOf]
    cases lerr with
    | true => rfl
    | false =>
      cases hord : record.order_line.isEmpty with
      | true => rfl
      | false => exact appendLoop_filter_middle _ _ pre post _ _ rfl key

/-! ### Concrete instances for witnesses and counterexamples -/

/-- A concrete PDF library: a buffer parses with one page exactly when it
carries the `%PDF` signature; serialisation concatenates the buffers. -/
def toyLib : PdfLib where
  parsePages := fun buf => if buf.take 4 = pdfSig then some 1 else none
  write := fun bufs => bufs.flatten

/-- A sale order with one line referencing product 7. -/
def sampleOrder : SaleOrder := ⟨[⟨some 7⟩]⟩

/-- The matching report descriptor. -/
def saleReport : Report := ⟨"sale.report_saleorder", "sale.order"⟩

/-- A signature-bearing buffer whose raw bytes ALSO decode as base64
(its 8 alphabet characters form two complete quads), `%PDFabcde`. -/
def cexPdf : List Nat := [37, 80, 68, 70, 97, 98, 99, 100, 101]

/-- A signature-bearing buffer whose raw bytes do NOT decode as base64
(3 alphabet characters leave an incomplete quad), `%PDF\n`. -/
def rawPdf : List Nat := [37, 80, 68, 70, 10]

/-- An environment whose store holds one product-template PDF attachment
with the given payload, linked to the product of `sampleOrder`. -/
def sampleEnv (p : Payload) : Env where
  recExists := fun _ => true
  orders := fun _ => sampleOrder
  product_tmpl_id := fun _ => 42
  attachments := [⟨"doc", "product.template", 42, "application/pdf", p⟩]
  lookupError := false
  lib := toyLib

/-- A malformed attachment record (empty payload). -/
def badAtt : AttachmentRec := ⟨"bad", "product.template", 42, "application/pdf", .pyNone⟩

/-- A well-formed attachment record (raw PDF bytes). -/
def goodAtt : AttachmentRec := ⟨"good", "product.template", 42, "application/pdf", .bytes rawPdf⟩

/-- C8 counterexample: `cexPdf` is a valid PDF (signature plus parseable
with one page), yet the base64-text form of its payload is appended while
the raw-byte form is spuriously base64-decoded to garbage and rejected, so
the two forms give different render results. -/
theorem c8_counterexample :
    (cexPdf.take 4 = pdfSig ∧ toyLib.parsePages cexPdf ≠ none) ∧
    render_qweb_pdf (sampleEnv (.str (b64encode cexPdf))) saleReport [1] pdfSig "pdf"
      ≠ render_qweb_pdf (sampleEnv (.bytes cexPdf)) saleReport [1] pdfSig "pdf" := by
  decide

theorem c8_base64_raw_equivalence_witness :
    ((∀ x ∈ rawPdf, x < 256) ∧ rawPdf.take 4 = pdfSig ∧
      toyLib.parsePages rawPdf ≠ none ∧ b64decode rawPdf = none) ∧
    render_qweb_pdf
        ⟨(fun _ => true), (fun _ => sampleOrder), (fun _ => 42),
          [] ++ ⟨"doc", "product.template", 42, "application/pdf", .str (b64encode rawPdf)⟩ :: [],
          false, toyLib⟩
        saleReport [1] pdfSig "pdf"
      = render_qweb_pdf
        ⟨(fun _ => true), (fun _ => sampleOrder), (fun _ => 42),
          [] ++ ⟨"doc", "product.template", 42, "application/pdf", .bytes rawPdf⟩ :: [],
          false, toyLib⟩
        saleReport [1] pdfSig "pdf" :=
  ⟨⟨by decide, by decide, by decide, by decide⟩,
    c8_base64_raw_equivalence (fun _ => true) (fun _ => sampleOrder) (fun _ => 42)
      false toyLib [] [] "doc" "product.template" 42 "application/pdf"
      saleReport [1] pdfSig "pdf" rawPdf
      (by decide) (by decide) (by decide) (by decide)⟩

theorem c2_no_error_escapes_witness :
    toyLib.parsePages [0] = none ∧
    render_qweb_pdf (sampleEnv (.bytes rawPdf)) saleReport [1] [0] "pdf" = ([0], "pdf") :=
  ⟨by decide,
    (c2_no_error_escapes (sampleEnv (.bytes rawPdf)) saleReport [1] [0] "pdf").2 (by decide)⟩

theorem c3_enrichment_guard_witness :
    enrichmentApplies ⟨"web.basic_layout", "sale.order"⟩ [1] pdfSig = false ∧
    render_qweb_pdf (sampleEnv (.bytes rawPdf)) ⟨"web.basic_layout", "sale.order"⟩ [1] pdfSig "pdf"
      = (pdfSig, "pdf") :=
  ⟨by decide,
    (c3_enrichment_guard (sampleEnv (.bytes rawPdf)) ⟨"web.basic_layout", "sale.order"⟩
      [1] pdfSig "pdf").2 (by decide)⟩

theorem c5_bad_attachment_skipped_witness :
    append_single_attachment toyLib badAtt = none ∧
    append_attachments_to_pdf toyLib pdfSig ([] ++ badAtt :: [goodAtt])
      = append_attachments_to_pdf toyLib pdfSig ([] ++ [goodAtt]) :=
  ⟨by decide, c5_bad_attachment_skipped toyLib pdfSig [] [goodAtt] badAtt (by decide)⟩

theorem c9_missing_record_passthrough_witness :
    ({ sampleEnv (.bytes rawPdf) with recExists := fun _ => false }).recExists 1 = false ∧
    render_qweb_pdf { sampleEnv (.bytes rawPdf) with recExists := fun _ => false }
        saleReport (1 :: []) pdfSig "pdf"
      = (pdfSig, "pdf") :=
  ⟨by decide,
    c9_missing_record_passthrough { sampleEnv (.bytes rawPdf) with recExists := fun _ => false }
      saleReport 1 [] pdfSig "pdf" (by decide)⟩

theorem c4_validation_conditions_witness :
    append_single_attachment toyLib goodAtt = some rawPdf ∧
    normalizePayload goodAtt.datas = some rawPdf :=
  ⟨by decide, (c4_validation_conditions toyLib goodAtt).2 rawPdf (by decide)⟩

theorem c6_merge_signal_witness :
    1 ≤ appended_count toyLib pdfSig [goodAtt] ∧
    append_attachments_to_pdf toyLib pdfSig [goodAtt]
      = some (toyLib.write (pdfSig :: appendLoop toyLib [goodAtt])) :=
  ⟨by decide,
    ((c6_merge_signal toyLib pdfSig [goodAtt]).2
        (toyLib.write (pdfSig :: appendLoop toyLib [goodAtt]))).mpr ⟨by decide, rfl⟩⟩
